import Mathlib

/-!
Shallow embedding of the Knowledge Canvas backend (src/main.py): a Flask
HTTP layer over a Firestore document collection `reactflow_data`, one
document per `user_id`.

Modelling conventions:
* A Firestore document written by this application is a `FlowDoc` record
  (the fields `save_flow_data` writes: nodes, edges, theme, updated_at,
  node_count, edge_count).
* The collection is an association list `Store` from user id to document.
* Firestore server timestamps are modelled as a `Nat` parameter `t`
  supplied to each writing operation.
* Store-level failures (network errors, permission errors, ...) are
  modelled by an explicit boolean flag `err` passed to each operation:
  `err = true` means the underlying store call raises.  The Python code
  wraps every store call in `try/except` and returns a boolean or `None`,
  so each embedded operation is a total function returning its result and
  the new store.
* Python dict field accesses that can raise `KeyError`/`TypeError`
  (`node["data"]`, `n["id"]`, `e["source"]`, `e["target"]`) are modelled
  with `Option`-valued fields; an access of an absent field makes the
  enclosing operation take its exception path.
-/

namespace KnowledgeCanvas

/-- The `data` mapping inside a node; values are modelled as opaque strings. -/
abbrev DataMap := List (String × String)

/-- Python dict assignment `m[k] = v`: overwrite in place if the key exists,
else append the new key at the end (dicts preserve insertion order). -/
def dictSet (m : DataMap) (k v : String) : DataMap :=
  if m.any (fun p => p.1 = k) then m.map (fun p => if p.1 = k then (k, v) else p)
  else m ++ [(k, v)]

/-- A node dict.  `id` is the `"id"` key (absent when `none`); `data` is the
`"data"` key when it holds a mapping (`none` when absent or not a mapping);
`extra` holds any other keys. -/
structure Node where
  id : Option String
  data : Option DataMap
  extra : List (String × String)
deriving DecidableEq, Repr

/-- An edge dict.  `source`/`target` are the `"source"`/`"target"` keys
(absent when `none`); `extra` holds any other keys. -/
structure Edge where
  source : Option String
  target : Option String
  extra : List (String × String)
deriving DecidableEq, Repr

/-- A stored per-user document, with exactly the fields `save_flow_data`
writes. -/
structure FlowDoc where
  nodes : List Node
  edges : List Edge
  theme : String
  updated_at : Nat
  node_count : Nat
  edge_count : Nat
deriving DecidableEq, Repr

/-- The `reactflow_data` collection: user id to document. -/
abbrev Store := List (String × FlowDoc)

/-- `doc_ref.get()` followed by `doc.exists` / `doc.to_dict()`: the stored
document for a user id, if any. -/
def lookupDoc : Store → String → Option FlowDoc
  | [], _ => none
  | (k, d) :: rest, uid => if k = uid then some d else lookupDoc rest uid

/-- `doc_ref.set(data)`: upsert, full overwrite of the document. -/
def setDoc : Store → String → FlowDoc → Store
  | [], uid, d => [(uid, d)]
  | (k, d0) :: rest, uid, d =>
      if k = uid then (uid, d) :: rest else (k, d0) :: setDoc rest uid d

/-- `doc_ref.delete()`: remove the document; deleting an absent document is
not an error in Firestore. -/
def removeDoc : Store → String → Store
  | [], _ => []
  | (k, d) :: rest, uid =>
      if k = uid then removeDoc rest uid else (k, d) :: removeDoc rest uid

theorem lookupDoc_setDoc_self (s : Store) (uid : String) (d : FlowDoc) :
    lookupDoc (setDoc s uid d) uid = some d := by
  induction s with
  | nil => simp [setDoc, lookupDoc]
  | cons hd tl ih =>
      obtain ⟨k, d0⟩ := hd
      by_cases h : k = uid <;> simp [setDoc, lookupDoc, h, ih]

theorem lookupDoc_setDoc_ne (s : Store) (uid uid' : String) (d : FlowDoc)
    (h : uid' ≠ uid) : lookupDoc (setDoc s uid d) uid' = lookupDoc s uid' := by
  induction s with
  | nil => simp [setDoc, lookupDoc, Ne.symm h]
  | cons hd tl ih =>
      obtain ⟨k, d0⟩ := hd
      by_cases hk : k = uid
      · subst hk
        simp [setDoc, lookupDoc, Ne.symm h]
      · simp [setDoc, lookupDoc, hk, ih]

theorem lookupDoc_removeDoc_self (s : Store) (uid : String) :
    lookupDoc (removeDoc s uid) uid = none := by
  induction s with
  | nil => simp [removeDoc, lookupDoc]
  | cons hd tl ih =>
      obtain ⟨k, d0⟩ := hd
      by_cases h : k = uid <;> simp [removeDoc, lookupDoc, h, ih]

namespace FlowDataManager

/-- `FlowDataManager.save_flow_data`: builds the document with recomputed
`node_count`/`edge_count` and overwrites via `set` (upsert); returns `false`
and leaves the store untouched when the store call raises. -/
def save_flow_data (s : Store) (uid : String) (nodes : List Node)
    (edges : List Edge) (theme : String) (t : Nat) (err : Bool) :
    Bool × Store :=
  if err then (false, s)
  else (true, setDoc s uid ⟨nodes, edges, theme, t, nodes.length, edges.length⟩)

/-- `FlowDataManager.get_flow_data`: returns the stored document, or `None`
both when no document exists and when the store read raises. -/
def get_flow_data (s : Store) (uid : String) (err : Bool) : Option FlowDoc :=
  if err then none else lookupDoc s uid

/-- `FlowDataManager.delete_flow_data`: deletes the document; Firestore
`delete` succeeds on an absent document, so the result is `true` whenever the
store call does not raise. -/
def delete_flow_data (s : Store) (uid : String) (err : Bool) : Bool × Store :=
  if err then (false, s) else (true, removeDoc s uid)

/-- `node["data"]["created_at"] = datetime.now().isoformat()`: fails
(`KeyError`/`TypeError`) when the node has no `"data"` key holding a mapping;
otherwise mutates the data mapping of the node in place. -/
def setCreatedAt (n : Node) (now : String) : Option Node :=
  match n.data with
  | none => none
  | some dm => some { n with data := some (dictSet dm "created_at" now) }

/-- `firestore.ArrayUnion([n])` applied to an array: append `n` at the end
unless an element equal to it (deep value equality) is already present. -/
def arrayUnionOne (xs : List Node) (n : Node) : List Node :=
  if n ∈ xs then xs else xs ++ [n]

/-- Result of `add_node`: the returned flag, the store after the call, and
the node object of the caller after the call (the Python code mutates the node
dict in place before writing). -/
structure AddResult where
  ok : Bool
  store : Store
  node : Node
deriving DecidableEq, Repr

/-- `FlowDataManager.add_node`: stamps `created_at` into the data mapping
of the node, then issues `update` with `ArrayUnion([node])` on `nodes` and a
server timestamp on `updated_at`.  `update` raises on an absent document;
every exception is caught and turned into `false`. -/
def add_node (s : Store) (uid : String) (node : Node) (now : String) (t : Nat)
    (err : Bool) : AddResult :=
  match setCreatedAt node now with
  | none => ⟨false, s, node⟩
  | some node' =>
      if err then ⟨false, s, node'⟩
      else
        match lookupDoc s uid with
        | none => ⟨false, s, node'⟩
        | some d =>
            ⟨true,
             setDoc s uid
               { d with nodes := arrayUnionOne d.nodes node', updated_at := t },
             node'⟩

/-- The comprehension `[n for n in nodes if n["id"] != node_id]`: `none` when
some node lacks an `id` key (Python raises `KeyError`). -/
def filterNodes : List Node → String → Option (List Node)
  | [], _ => some []
  | n :: rest, nid =>
      match n.id with
      | none => none
      | some i =>
          (filterNodes rest nid).map fun r => if i ≠ nid then n :: r else r

/-- One step of the condition of the edge comprehension
`e["source"] != node_id and e["target"] != node_id`, with the short-circuit
evaluation of Python: when the source equals `node_id` the target is never
read. -/
def edgeKeep (e : Edge) (nid : String) : Option Bool :=
  match e.source with
  | none => none
  | some src =>
      if src = nid then some false
      else
        match e.target with
        | none => none
        | some tgt => some (tgt ≠ nid)

/-- The comprehension
`[e for e in edges if e["source"] != node_id and e["target"] != node_id]`. -/
def filterEdges : List Edge → String → Option (List Edge)
  | [], _ => some []
  | e :: rest, nid =>
      match edgeKeep e nid with
      | none => none
      | some b => (filterEdges rest nid).map fun r => if b then e :: r else r

/-- `FlowDataManager.remove_node`: reads the document (failure or absence
gives `False` with no write), filters nodes and edges, then issues `update`
on `nodes`, `edges` and `updated_at`.  `errGet` injects a failure into the
read, `errUp` into the write. -/
def remove_node (s : Store) (uid nid : String) (t : Nat)
    (errGet errUp : Bool) : Bool × Store :=
  match get_flow_data s uid errGet with
  | none => (false, s)
  | some d =>
      match filterNodes d.nodes nid, filterEdges d.edges nid with
      | some ns, some es =>
          if errUp then (false, s)
          else (true, setDoc s uid { d with nodes := ns, edges := es, updated_at := t })
      | _, _ => (false, s)

end FlowDataManager

/-- A JSON field expected to be a sequence: absent, a sequence, or present
but of some non-sequence type. -/
inductive SeqField (α : Type) where
  | absent
  | seq (xs : List α)
  | nonSeq
deriving DecidableEq

/-- `data.get(field, [])` followed by the `isinstance(..., list)` check:
absent defaults to the empty list, a non-sequence value is rejected. -/
def SeqField.toListO : SeqField α → Option (List α)
  | .absent => some []
  | .seq xs => some xs
  | .nonSeq => none

/-- Parsed JSON body of a `POST /api/flow/save` request. -/
structure SaveReq where
  user_id : Option String
  theme : Option String
  nodes : SeqField Node
  edges : SeqField Edge

/-- Response of the save route. -/
inductive SaveResp where
  | ok (node_count edge_count : Nat)
  | invalidFormat
  | saveFailed
deriving DecidableEq, Repr

/-- HTTP status of a save response. -/
def SaveResp.status : SaveResp → Nat
  | .ok _ _ => 200
  | .invalidFormat => 400
  | .saveFailed => 500

/-- Route handler `save_flow` (`POST /api/flow/save`), in its operational
mode (`flow_manager` initialized): applies defaults, validates that nodes and
edges are sequences, then delegates to `save_flow_data`. -/
def save_flow (s : Store) (req : SaveReq) (t : Nat) (err : Bool) :
    SaveResp × Store :=
  let uid := req.user_id.getD "default_user"
  let theme := req.theme.getD "light"
  match req.nodes.toListO, req.edges.toListO with
  | some ns, some es =>
      let r := FlowDataManager.save_flow_data s uid ns es theme t err
      (if r.1 then .ok ns.length es.length else .saveFailed, r.2)
  | _, _ => (.invalidFormat, s)

/-- JSON response of the load route; `status` is the HTTP status.  Fields
absent from the emitted JSON object are `none`. -/
structure LoadResp where
  status : Nat
  nodes : List Node
  edges : List Edge
  theme : String
  updated_at : Option Nat
  node_count : Option Nat
  edge_count : Option Nat
  message : Option String
deriving DecidableEq, Repr

/-- The payload `load_flow` returns when no data is found: HTTP 200 with
empty nodes and edges and the default theme. -/
def emptyLoadResp : LoadResp :=
  ⟨200, [], [], "light", none, none, none, some "No data found for user"⟩

/-- Route handler `load_flow` (`GET /api/flow/load/<user_id>`), in its
operational mode: projects the stored document, or returns the
empty-default payload with HTTP 200 when `get_flow_data` yields nothing. -/
def load_flow (s : Store) (uid : String) (err : Bool) : LoadResp :=
  match FlowDataManager.get_flow_data s uid err with
  | some d =>
      ⟨200, d.nodes, d.edges, d.theme, some d.updated_at, some d.node_count,
       some d.edge_count, none⟩
  | none => emptyLoadResp

/-- Parsed JSON body of a `POST /api/flow/node` request. -/
structure NodeReq where
  user_id : Option String
  node : Option Node

/-- Response of the add-node route. -/
inductive NodeResp where
  | ok
  | nodeRequired
  | addFailed
deriving DecidableEq, Repr

/-- HTTP status of an add-node response. -/
def NodeResp.status : NodeResp → Nat
  | .ok => 200
  | .nodeRequired => 400
  | .addFailed => 500

/-- Python truthiness of a node dict: the empty mapping is falsy. -/
def Node.isEmptyDict (n : Node) : Bool :=
  n.id = none && n.data = none && n.extra = []

/-- Route handler `add_node` (`POST /api/flow/node`), in its operational
mode: rejects an absent or falsy `node` with HTTP 400 before any Data Access
Layer call, else delegates to `FlowDataManager.add_node`. -/
def add_node_route (s : Store) (req : NodeReq) (now : String) (t : Nat)
    (err : Bool) : NodeResp × Store :=
  match req.node with
  | none => (.nodeRequired, s)
  | some n =>
      if n.isEmptyDict then (.nodeRequired, s)
      else
        let r := FlowDataManager.add_node s (req.user_id.getD "default_user")
          n now t err
        (if r.ok then .ok else .addFailed, r.store)

/-! ## Demonstration data used by the witness theorems -/

/-- A node with id `n1` and an empty data mapping. -/
def node1 : Node := ⟨some "n1", some [], []⟩

/-- A node with id `n2` and an empty data mapping. -/
def node2 : Node := ⟨some "n2", some [], []⟩

/-- The edge from `n1` to `n2`. -/
def edge12 : Edge := ⟨some "n1", some "n2", []⟩

/-! ## Claim theorems -/

/-- C1: if `save_flow_data(user_id, nodes, edges, theme)` succeeds and a
subsequent `get_flow_data(user_id)` succeeds, the loaded document carries the
saved `nodes`, `edges` and `theme`, with `node_count` and `edge_count` equal
to the lengths of the saved lists. -/
theorem save_then_get_roundtrip (s : Store) (uid : String) (nodes : List Node)
    (edges : List Edge) (theme : String) (t : Nat) (e₁ e₂ : Bool) (d : FlowDoc)
    (hsave : (FlowDataManager.save_flow_data s uid nodes edges theme t e₁).1 = true)
    (hget : FlowDataManager.get_flow_data
      (FlowDataManager.save_flow_data s uid nodes edges theme t e₁).2 uid e₂
      = some d) :
    d.nodes = nodes ∧ d.edges = edges ∧ d.theme = theme ∧
    d.node_count = nodes.length ∧ d.edge_count = edges.length := by
  cases e₁ with
  | true => simp [FlowDataManager.save_flow_data] at hsave
  | false =>
      cases e₂ with
      | true => simp [FlowDataManager.get_flow_data] at hget
      | false =>
          simp [FlowDataManager.save_flow_data, FlowDataManager.get_flow_data,
            lookupDoc_setDoc_self] at hget
          subst hget
          simp

/-- Concrete round trip: saving one node, one edge and theme `dark` for user
`u` into the empty store, then loading `u`, returns exactly the saved data
with both counts equal to one. -/
theorem save_then_get_roundtrip_witness :
    (⟨[node1], [edge12], "dark", 7, 1, 1⟩ : FlowDoc).nodes = [node1] ∧
    (⟨[node1], [edge12], "dark", 7, 1, 1⟩ : FlowDoc).edges = [edge12] ∧
    (⟨[node1], [edge12], "dark", 7, 1, 1⟩ : FlowDoc).theme = "dark" ∧
    (⟨[node1], [edge12], "dark", 7, 1, 1⟩ : FlowDoc).node_count
      = [node1].length ∧
    (⟨[node1], [edge12], "dark", 7, 1, 1⟩ : FlowDoc).edge_count
      = [edge12].length :=
  save_then_get_roundtrip [] "u" [node1] [edge12] "dark" 7 false false
    ⟨[node1], [edge12], "dark", 7, 1, 1⟩ (by decide) (by decide)

/-- C5: loading a `user_id` for which no document exists returns the
empty-default payload with HTTP 200 (empty nodes, empty edges, theme
`light`), not an error response. -/
theorem load_flow_missing (s : Store) (uid : String) (err : Bool)
    (h : lookupDoc s uid = none) :
    load_flow s uid err = emptyLoadResp ∧
    (load_flow s uid err).status = 200 ∧
    (load_flow s uid err).nodes = [] ∧
    (load_flow s uid err).edges = [] ∧
    (load_flow s uid err).theme = "light" := by
  have hg : FlowDataManager.get_flow_data s uid err = none := by
    cases err <;> simp [FlowDataManager.get_flow_data, h]
  simp [load_flow, hg, emptyLoadResp]

/-- Concrete load of a never-saved user from the empty store: the
empty-default payload with status 200 comes back. -/
theorem load_flow_missing_witness :
    load_flow [] "ghost" false = emptyLoadResp ∧
    (load_flow [] "ghost" false).status = 200 ∧
    (load_flow [] "ghost" false).nodes = [] ∧
    (load_flow [] "ghost" false).edges = [] ∧
    (load_flow [] "ghost" false).theme = "light" :=
  load_flow_missing [] "ghost" false rfl

/-- C6: `get_flow_data` is a total function (it never raises to its caller)
that returns the absent sentinel `none` both when the store read raises and
when no document exists, so the two cases yield the same observable value. -/
theorem get_flow_data_conflates (s : Store) (uid : String) :
    FlowDataManager.get_flow_data s uid true = none ∧
    (lookupDoc s uid = none → FlowDataManager.get_flow_data s uid false = none) := by
  refine ⟨by simp [FlowDataManager.get_flow_data], fun h => ?_⟩
  simp [FlowDataManager.get_flow_data, h]

/-- Concrete conflation: on the empty store, a failing read and a clean read
of a missing document both return `none`. -/
theorem get_flow_data_conflates_witness :
    FlowDataManager.get_flow_data [] "u" true = none ∧
    FlowDataManager.get_flow_data [] "u" false = none :=
  ⟨(get_flow_data_conflates [] "u").1, (get_flow_data_conflates [] "u").2 rfl⟩

/-- C7: a successful `delete_flow_data(user_id)` followed by a load of the
same `user_id` returns the empty-default payload, and deleting a `user_id`
with no stored document is not an error (the store raises no
missing-delete-target condition), so the success flag comes back. -/
theorem delete_then_load (s : Store) (uid : String) (err e : Bool) :
    ((FlowDataManager.delete_flow_data s uid err).1 = true →
      load_flow (FlowDataManager.delete_flow_data s uid err).2 uid e
        = emptyLoadResp) ∧
    (lookupDoc s uid = none →
      (FlowDataManager.delete_flow_data s uid false).1 = true) := by
  constructor
  · intro hdel
    cases err with
    | true => simp [FlowDataManager.delete_flow_data] at hdel
    | false =>
        have hl : lookupDoc (removeDoc s uid) uid = none :=
          lookupDoc_removeDoc_self s uid
        cases e <;>
          simp [FlowDataManager.delete_flow_data, load_flow,
            FlowDataManager.get_flow_data, hl, emptyLoadResp]
  · intro _
    simp [FlowDataManager.delete_flow_data]

/-- Concrete delete-then-load: deleting user `u` from a store that holds a
document for `u` and loading `u` afterwards gives the empty-default payload;
deleting `u` from the empty store returns the success flag. -/
theorem delete_then_load_witness :
    load_flow
      (FlowDataManager.delete_flow_data
        [("u", ⟨[node1], [edge12], "dark", 7, 1, 1⟩)] "u" false).2 "u" false
      = emptyLoadResp ∧
    (FlowDataManager.delete_flow_data [] "u" false).1 = true :=
  ⟨(delete_then_load [("u", ⟨[node1], [edge12], "dark", 7, 1, 1⟩)] "u"
      false false).1 rfl,
   (delete_then_load [] "u" false false).2 rfl⟩

/-- C8: the save route substitutes defaults for absent body fields before
delegating — `user_id` defaults to `default_user`, `theme` to `light`,
`nodes` and `edges` to empty sequences — so with explicit node and edge
sequences but absent `user_id`/`theme` the document lands under
`default_user` with theme `light`, and the empty JSON object body saves an
empty document under `default_user` with theme `light`. -/
theorem save_flow_defaults (s : Store) (t : Nat) (ns : List Node)
    (es : List Edge) :
    save_flow s ⟨none, none, .seq ns, .seq es⟩ t false
      = (.ok ns.length es.length,
         setDoc s "default_user" ⟨ns, es, "light", t, ns.length, es.length⟩) ∧
    save_flow s ⟨none, none, .absent, .absent⟩ t false
      = (.ok 0 0, setDoc s "default_user" ⟨[], [], "light", t, 0, 0⟩) :=
  ⟨rfl, rfl⟩

theorem filterNodes_eq (ns : List Node) (nid : String)
    (h : ∀ n ∈ ns, n.id ≠ none) :
    FlowDataManager.filterNodes ns nid
      = some (ns.filter fun n => n.id ≠ some nid) := by
  induction ns with
  | nil => rfl
  | cons n rest ih =>
      obtain ⟨i, hi⟩ := Option.ne_none_iff_exists'.mp (h n (by simp))
      have ih' := ih fun m hm => h m (List.mem_cons_of_mem _ hm)
      by_cases hc : i = nid <;>
        simp [FlowDataManager.filterNodes, hi, ih', List.filter_cons, hc]

theorem filterEdges_eq (es : List Edge) (nid : String)
    (h : ∀ e ∈ es, e.source ≠ none ∧ e.target ≠ none) :
    FlowDataManager.filterEdges es nid
      = some (es.filter fun e => e.source ≠ some nid ∧ e.target ≠ some nid) := by
  induction es with
  | nil => rfl
  | cons e rest ih =>
      obtain ⟨a, ha⟩ := Option.ne_none_iff_exists'.mp (h e (by simp)).1
      obtain ⟨b, hb⟩ := Option.ne_none_iff_exists'.mp (h e (by simp)).2
      have ih' := ih fun f hf => h f (List.mem_cons_of_mem _ hf)
      by_cases hca : a = nid
      · simp [FlowDataManager.filterEdges, FlowDataManager.edgeKeep, ha, hb,
          hca, ih', List.filter_cons]
      · by_cases hcb : b = nid <;>
          simp [FlowDataManager.filterEdges, FlowDataManager.edgeKeep, ha, hb,
            hca, hcb, ih', List.filter_cons]

/-- C2: on an existing document whose nodes all carry an `id` and whose edges
all carry `source` and `target`, `remove_node(user_id, node_id)` succeeds and
overwrites `nodes` with exactly the entries whose id differs from `node_id`
and `edges` with exactly the entries whose source and target both differ from
`node_id` (refreshing `updated_at`); when no document exists for `user_id`,
it returns failure and leaves the store untouched. -/
theorem remove_node_spec (s : Store) (uid nid : String) (t : Nat)
    (d : FlowDoc) (eg eu : Bool) :
    (lookupDoc s uid = some d →
      (∀ n ∈ d.nodes, n.id ≠ none) →
      (∀ e ∈ d.edges, e.source ≠ none ∧ e.target ≠ none) →
      FlowDataManager.remove_node s uid nid t false false
        = (true, setDoc s uid
            { d with
              nodes := d.nodes.filter fun n => n.id ≠ some nid,
              edges := d.edges.filter fun e =>
                e.source ≠ some nid ∧ e.target ≠ some nid,
              updated_at := t })) ∧
    (lookupDoc s uid = none →
      FlowDataManager.remove_node s uid nid t eg eu = (false, s)) := by
  constructor
  · intro hd hn he
    simp [FlowDataManager.remove_node, FlowDataManager.get_flow_data, hd,
      filterNodes_eq d.nodes nid hn, filterEdges_eq d.edges nid he]
  · intro hd
    cases eg <;>
      simp [FlowDataManager.remove_node, FlowDataManager.get_flow_data, hd]

/-- Concrete removal: on a document with nodes `[n1, n2]` and the single edge
`n1 → n2`, removing `n1` yields nodes `[n2]` and edges `[]`; on the empty
store, removal fails and writes nothing. -/
theorem remove_node_spec_witness :
    FlowDataManager.remove_node [("u", ⟨[node1, node2], [edge12], "light", 0, 2, 1⟩)]
      "u" "n1" 5 false false
      = (true, [("u", ⟨[node2], [], "light", 5, 2, 1⟩)]) ∧
    FlowDataManager.remove_node ([] : Store) "u" "n1" 5 false false
      = (false, []) := by
  constructor
  · have h := (remove_node_spec
      [("u", ⟨[node1, node2], [edge12], "light", 0, 2, 1⟩)] "u" "n1" 5
      ⟨[node1, node2], [edge12], "light", 0, 2, 1⟩ false false).1
      rfl (by decide) (by decide)
    rw [h]; decide
  · exact (remove_node_spec [] "u" "n1" 5
      ⟨[node1, node2], [edge12], "light", 0, 2, 1⟩ false false).2 rfl

/-- C3: a successful `add_node(user_id, node)` rewrites the document for
`user_id` to differ from the prior document only in `nodes` (the array union
of the old array with the timestamped node) and `updated_at`; `edges`,
`theme`, `node_count` and `edge_count` are carried over unchanged (in
particular `node_count` is not recomputed), and documents of other users are
untouched. -/
theorem add_node_frame (s : Store) (uid uid' : String) (node : Node)
    (now : String) (t : Nat) (err : Bool) (d : FlowDoc)
    (hd : lookupDoc s uid = some d)
    (hok : (FlowDataManager.add_node s uid node now t err).ok = true)
    (hne : uid' ≠ uid) :
    lookupDoc (FlowDataManager.add_node s uid node now t err).store uid
      = some { d with
          nodes := FlowDataManager.arrayUnionOne d.nodes
            (FlowDataManager.add_node s uid node now t err).node,
          updated_at := t } ∧
    lookupDoc (FlowDataManager.add_node s uid node now t err).store uid'
      = lookupDoc s uid' := by
  cases hsc : FlowDataManager.setCreatedAt node now with
  | none => simp [FlowDataManager.add_node, hsc] at hok
  | some node' =>
      cases err with
      | true => simp [FlowDataManager.add_node, hsc] at hok
      | false =>
          simp [FlowDataManager.add_node, hsc, hd, lookupDoc_setDoc_self,
            lookupDoc_setDoc_ne _ _ _ _ hne]

/-- Concrete frame check: adding `n2` to a document whose stored
`node_count` is 1 leaves `node_count` at 1 while `nodes` now has length 2
(the count is not recomputed), keeps `edges`, `theme` and `edge_count`, and
leaves the document of user `v` absent as before. -/
theorem add_node_frame_witness :
    lookupDoc (FlowDataManager.add_node [("u", ⟨[node1], [], "light", 0, 1, 0⟩)]
        "u" node2 "T" 9 false).store "u"
      = some ⟨[node1, ⟨some "n2", some [("created_at", "T")], []⟩],
              [], "light", 9, 1, 0⟩ ∧
    lookupDoc (FlowDataManager.add_node [("u", ⟨[node1], [], "light", 0, 1, 0⟩)]
        "u" node2 "T" 9 false).store "v"
      = none := by
  have h := add_node_frame [("u", ⟨[node1], [], "light", 0, 1, 0⟩)] "u" "v"
    node2 "T" 9 false ⟨[node1], [], "light", 0, 1, 0⟩ rfl (by decide) (by decide)
  refine ⟨?_, ?_⟩
  · rw [h.1]; decide
  · rw [h.2]; decide

/-- C4: a save request whose `nodes` or `edges` field is present but not a
sequence is answered with the invalid-format response (HTTP 400) and the
store is returned unchanged — no write is issued, so any previously stored
document for that user survives. -/
theorem save_flow_nonseq (s : Store) (req : SaveReq) (t : Nat) (err : Bool)
    (h : req.nodes = .nonSeq ∨ req.edges = .nonSeq) :
    save_flow s req t err = (.invalidFormat, s) ∧
    (save_flow s req t err).1.status = 400 := by
  have key : save_flow s req t err = (.invalidFormat, s) := by
    obtain ⟨u, th, nf, ef⟩ := req
    rcases h with h | h
    · cases h
      cases ef <;> rfl
    · cases h
      cases nf <;> rfl
  exact ⟨key, by rw [key]; rfl⟩

/-- Concrete rejection: a save request for user `u` whose `nodes` field is a
non-sequence value gets HTTP 400 and the stored document of `u` is left
exactly as it was. -/
theorem save_flow_nonseq_witness :
    save_flow [("u", ⟨[node1], [], "dark", 3, 1, 0⟩)]
      ⟨some "u", some "dark", .nonSeq, .seq []⟩ 8 false
      = (.invalidFormat, [("u", ⟨[node1], [], "dark", 3, 1, 0⟩)]) ∧
    (save_flow [("u", ⟨[node1], [], "dark", 3, 1, 0⟩)]
      ⟨some "u", some "dark", .nonSeq, .seq []⟩ 8 false).1.status = 400 :=
  save_flow_nonseq [("u", ⟨[node1], [], "dark", 3, 1, 0⟩)]
    ⟨some "u", some "dark", .nonSeq, .seq []⟩ 8 false (Or.inl rfl)

/-- C9: the add-node route answers HTTP 400 (`Node data required`) whenever
the `node` field is absent or falsy — in particular when it is the empty
mapping — and returns the store unchanged: the Data Access Layer is never
reached and no write occurs. -/
theorem add_node_route_rejects (s : Store) (req : NodeReq) (now : String)
    (t : Nat) (err : Bool)
    (h : req.node = none ∨ req.node = some ⟨none, none, []⟩) :
    add_node_route s req now t err = (.nodeRequired, s) ∧
    (add_node_route s req now t err).1.status = 400 := by
  have key : add_node_route s req now t err = (.nodeRequired, s) := by
    rcases h with h | h <;> simp [add_node_route, h, Node.isEmptyDict]
  exact ⟨key, by rw [key]; rfl⟩

/-- Concrete rejections: a request without a `node` field and a request whose
`node` is the empty mapping both get HTTP 400 with the store unchanged. -/
theorem add_node_route_rejects_witness :
    add_node_route [] ⟨some "u", none⟩ "T" 1 false = (.nodeRequired, []) ∧
    add_node_route [] ⟨none, some ⟨none, none, []⟩⟩ "T" 1 false
      = (.nodeRequired, []) :=
  ⟨(add_node_route_rejects [] ⟨some "u", none⟩ "T" 1 false (Or.inl rfl)).1,
   (add_node_route_rejects [] ⟨none, some ⟨none, none, []⟩⟩ "T" 1 false
      (Or.inr rfl)).1⟩

/-- C10: `add_node` on a node without a `data` mapping fails before any store
write (the failure flag comes back, the store is unchanged and the node is
not mutated); on a node carrying a `data` mapping, that mapping receives
`created_at` even when the subsequent store write fails. -/
theorem add_node_data_behavior (s : Store) (uid : String) (node : Node)
    (dm : DataMap) (now : String) (t : Nat) (err : Bool) :
    (node.data = none →
      FlowDataManager.add_node s uid node now t err = ⟨false, s, node⟩) ∧
    (node.data = some dm →
      (FlowDataManager.add_node s uid node now t err).node
        = { node with data := some (dictSet dm "created_at" now) }) := by
  constructor
  · intro h
    simp [FlowDataManager.add_node, FlowDataManager.setCreatedAt, h]
  · intro h
    have hsc : FlowDataManager.setCreatedAt node now
        = some { node with data := some (dictSet dm "created_at" now) } := by
      simp [FlowDataManager.setCreatedAt, h]
    cases err with
    | true => simp [FlowDataManager.add_node, hsc]
    | false =>
        cases hl : lookupDoc s uid <;>
          simp [FlowDataManager.add_node, hsc, hl]

/-- Concrete data handling: a node without a `data` mapping makes `add_node`
fail with the store untouched and the node unmutated; a node with an empty
`data` mapping gets `created_at` stamped into it even though the store write
fails (`err = true`). -/
theorem add_node_data_behavior_witness :
    FlowDataManager.add_node [] "u" ⟨some "x", none, []⟩ "T" 3 false
      = ⟨false, [], ⟨some "x", none, []⟩⟩ ∧
    (FlowDataManager.add_node [] "u" ⟨some "y", some [], []⟩ "T" 3 true).node
      = ⟨some "y", some [("created_at", "T")], []⟩ := by
  constructor
  · exact (add_node_data_behavior [] "u" ⟨some "x", none, []⟩ [] "T" 3 false).1 rfl
  · have h := (add_node_data_behavior [] "u" ⟨some "y", some [], []⟩ [] "T" 3
      true).2 rfl
    rw [h]; decide

end KnowledgeCanvas
